import Mathlib

/-!
Verification of `src/agent-diva-gui/src-tauri/check_browsers.py`, a linear
diagnostic script that probes a (Windows) host for installed web browsers in
four sequential steps and prints a report to standard output.

Shallow embedding: the filesystem is a pair of boolean oracles
(`os.path.exists`, `os.path.isdir`), the PATH environment variable is an
`Option String` (`os.environ.get("PATH", "")`), and the two platform services
used by the script (`webbrowser.open`, `webbrowser.get`) are modelled as
`Except`-valued fields of a `Platform` record, since the script only observes
their success/failure outcome and any textual description.  Each Python
`print(...)` contributes one string to the output list; the leading `"\n"` of
the section headers is kept as part of the printed string.
-/

namespace CheckBrowsers

/-- The filesystem as seen by the script: `os.path.exists` and
`os.path.isdir` are total boolean queries that never raise (a missing parent
directory simply makes them return `false`). -/
structure FS where
  pathExists : String → Bool
  isDir : String → Bool

/-- The two opaque platform services consumed by the script:
`webbrowser.open(url)` (step 1), which can raise, and `webbrowser.get()`
(step 4), which can raise or return a controller whose `str()` description is
printed.  An exception is modelled as `Except.error` carrying the exception's
textual description (what `f"{e}"` interpolates). -/
structure Platform where
  webbrowser_open : String → Except String Unit
  webbrowser_get : Except String String

/-- A Python `try: body except Exception as e: handler(e)` block whose body
prints some lines: any raised error is caught at the point of occurrence and
converted to the handler's lines; nothing propagates. -/
def tryCatch (body : Except String (List String)) (handler : String → List String) :
    List String :=
  match body with
  | Except.ok out => out
  | Except.error e => handler e

/-- `os.path.expanduser` for the one shape the script uses (a path starting
with a bare `~`): replaces the leading `~` with the user's home directory. -/
def expanduser (home : String) (p : String) : String :=
  if p.startsWith "~" then home ++ p.drop 1 else p

/-- Whether the string's last character is `c`. -/
def lastCharIs (s : String) (c : Char) : Bool :=
  match s.data.getLast? with
  | some d => d = c
  | none => false

/-- `os.path.join(a, b)` (Windows `ntpath` semantics for a drive-less second
component): inserts a backslash unless `a` is empty or already ends in a
separator or a drive colon. -/
def os_path_join (a b : String) : String :=
  if a = "" then b
  else if lastCharIs a '\\' || lastCharIs a '/' || lastCharIs a ':' then a ++ b
  else a ++ "\\" ++ b

/-- Python `str.split(sep)` for a single-character separator, on the
character list: splits at every occurrence of `sep`, keeping empty chunks,
and yields one chunk even for the empty input (`"".split(";") == [""]`). -/
def splitChars (sep : Char) : List Char → List (List Char)
  | [] => [[]]
  | c :: cs =>
      let r := splitChars sep cs
      if c = sep then [] :: r
      else
        match r with
        | chunk :: rest => (c :: chunk) :: rest
        | [] => [[c]]

/-- Python `str.split(sep)` for a single-character separator, on `String`. -/
def pySplit (sep : Char) (s : String) : List String :=
  (splitChars sep s.data).map (fun cs => String.mk cs)

/-- Line 47 of the source: `paths = env_path.split(";")` — the PATH string is
split on the literal semicolon character. -/
def path_split (env_path : String) : List String :=
  pySplit ';' env_path

/-- Lines 15–33: the Browser Candidate Table, a fixed mapping from browser
display name to the ordered list of candidate installation paths.  The third
Chrome candidate goes through `os.path.expanduser`, hence the `home`
parameter. -/
def browsers_table (home : String) : List (String × List String) :=
  [("Chrome",
    ["C:\\Program Files\\Google\\Chrome\\Application\\chrome.exe",
     "C:\\Program Files (x86)\\Google\\Chrome\\Application\\chrome.exe",
     expanduser home "~\\AppData\\Local\\Google\\Chrome\\Application\\chrome.exe"]),
   ("Edge",
    ["C:\\Program Files (x86)\\Microsoft\\Edge\\Application\\msedge.exe",
     "C:\\Program Files\\Microsoft\\Edge\\Application\\msedge.exe"]),
   ("Firefox",
    ["C:\\Program Files\\Mozilla Firefox\\firefox.exe",
     "C:\\Program Files (x86)\\Mozilla Firefox\\firefox.exe"]),
   ("Opera",
    ["C:\\Program Files\\Opera\\launcher.exe",
     "C:\\Program Files (x86)\\Opera\\launcher.exe"])]

/-- Line 48: the fixed list of browser executable filenames looked up in each
PATH directory. -/
def browser_exes : List String :=
  ["chrome.exe", "firefox.exe", "msedge.exe", "opera.exe", "iexplore.exe"]

/-- Lines 7–12, step 1: try to open the fixed URL in the default browser;
print a confirmation on success, or the caught error's description. -/
def step1 (plat : Platform) : List String :=
  tryCatch
    (do
      _ ← plat.webbrowser_open "https://www.baidu.com"
      pure ["已尝试打开浏览器"])
    (fun e => ["打开浏览器时出错: " ++ e])

/-- Lines 36–43, the inner loop of step 2 for one browser: walk the candidate
paths in order; on the first existing one print the found line and `break`;
if the loop finishes with `found` still false, print the not-found line. -/
def step2Browser (fs : FS) (browser_name : String) : List String → List String
  | [] => ["✗ " ++ browser_name ++ ": 未找到"]
  | path :: rest =>
      if fs.pathExists path then ["✓ " ++ browser_name ++ ": " ++ path]
      else step2Browser fs browser_name rest

/-- Line 35, step 2: iterate over the Browser Candidate Table entries in
order (Python dict iteration preserves insertion order). -/
def step2 (fs : FS) (browsers : List (String × List String)) : List String :=
  browsers.flatMap (fun b => step2Browser fs b.1 b.2)

/-- Lines 51–55: the body of step 3 for one PATH entry: entries that are not
real directories are skipped silently; in a real directory every executable
name in `browser_exes` is checked and every hit prints a match line. -/
def entryMatches (fs : FS) (path : String) : List String :=
  if fs.isDir path then
    browser_exes.flatMap (fun exe =>
      let exe_path := os_path_join path exe
      if fs.pathExists exe_path then ["✓ 在 PATH 中找到: " ++ exe_path] else [])
  else []

/-- Line 50: iterate the split PATH entries in order, concatenating each
entry's match lines. -/
def step3Entries (fs : FS) (entries : List String) : List String :=
  entries.flatMap (entryMatches fs)

/-- Lines 46–55, step 3: read `os.environ.get("PATH", "")`, split on `";"`,
and scan every entry. -/
def step3 (fs : FS) (pathVar : Option String) : List String :=
  step3Entries fs (path_split (pathVar.getD ""))

/-- Lines 58–62, step 4: try `webbrowser.get()`; print the controller's
description on success, or the caught error's description. -/
def step4 (plat : Platform) : List String :=
  tryCatch
    (do
      let browser ← plat.webbrowser_get
      pure ["默认浏览器控制器: " ++ browser])
    (fun e => ["获取浏览器信息时出错: " ++ e])

/-- The whole module run on an arbitrary candidate table: the four section
headers and the four steps, in the source's fixed order.  Each list element
is one `print` call. -/
def run (browsers : List (String × List String)) (fs : FS) (pathVar : Option String)
    (plat : Platform) : List String :=
  ["=== 浏览器检查 ==="] ++
  ["\n1. 尝试打开默认浏览器访问百度..."] ++ step1 plat ++
  ["\n2. 检查常见浏览器安装路径..."] ++ step2 fs browsers ++
  ["\n3. 检查环境变量中的浏览器..."] ++ step3 fs pathVar ++
  ["\n4. 尝试使用 webbrowser 模块获取浏览器信息..."] ++ step4 plat

/-- The process as a whole: the printed lines paired with the exit status.
The script never calls `sys.exit`, and every operation that can raise
(`webbrowser.open`, `webbrowser.get`) sits inside a `try/except Exception`
block, while the existence checks, the environment read and the split are
total; so the interpreter always reaches the end of the module and exits
with status 0. -/
def runProcess (home : String) (fs : FS) (pathVar : Option String) (plat : Platform) :
    List String × Nat :=
  (run (browsers_table home) fs pathVar plat, 0)

/-- The process entry point as invoked with an argument vector: the script
imports `sys` but never reads `sys.argv` (or any other argument source), so
the argument vector does not occur in the result. -/
def main_argv (argv : List String) (home : String) (fs : FS) (pathVar : Option String)
    (plat : Platform) : List String × Nat :=
  runProcess home fs pathVar plat

/-- A host operating system, as far as path-list splitting is concerned. -/
inductive HostOS
  | windows
  | posix
deriving DecidableEq

/-- Modelled from the spec: "the platform path-list separator" — `";"` on
Windows, `":"` on POSIX systems. -/
def pathListSeparator : HostOS → Char
  | HostOS.windows => ';'
  | HostOS.posix => ':'

/-- Modelled from the spec: "split it into directory entries using the
platform path-list separator" of the host operating system. -/
def splitPathSpec (os : HostOS) (s : String) : List String :=
  pySplit (pathListSeparator os) s

/-- A concrete filesystem for witnesses: the first list is the set of paths
that exist, the second the set of paths that are directories. -/
def fsOf (ex dirs : List String) : FS :=
  { pathExists := fun p => ex.contains p, isDir := fun d => dirs.contains d }

/-- A platform whose launch facility and resolver both succeed. -/
def platOK : Platform :=
  { webbrowser_open := fun _ => Except.ok (),
    webbrowser_get := Except.ok "MockController" }

/-- A platform whose launch facility and resolver both raise. -/
def platFail : Platform :=
  { webbrowser_open := fun _ => Except.error "no browser",
    webbrowser_get := Except.error "could not locate runnable browser" }

/-- Splitting a list of entries distributes the per-entry matches. -/
theorem step3Entries_append (fs : FS) (l1 l2 : List String) :
    step3Entries fs (l1 ++ l2) = step3Entries fs l1 ++ step3Entries fs l2 := by
  simp [step3Entries]

/-- C1: in the known-path existence scan (step 2), candidate paths are
checked in order and the first existing one is reported as found with that
exact path, after which no further candidate for that browser is checked or
reported, even if a later candidate (in `post`) also exists. -/
theorem step2_first_match (fs : FS) (browser_name p : String)
    (pre post : List String)
    (hpre : ∀ q ∈ pre, fs.pathExists q = false)
    (hp : fs.pathExists p = true) :
    step2Browser fs browser_name (pre ++ p :: post) =
      ["✓ " ++ browser_name ++ ": " ++ p] := by
  induction pre with
  | nil => simp [step2Browser, hp]
  | cons q qs ih =>
      have hq : fs.pathExists q = false := hpre q (by simp)
      rw [List.cons_append, step2Browser, hq]
      simpa using ih (fun r hr => hpre r (by simp [hr]))

/-- Witness for C1: with only the second and third candidates existing, the
found line names the second candidate exactly, and the third is not
reported. -/
theorem step2_first_match_witness :
    step2Browser (fsOf ["b", "c"] []) "Chrome" (["a"] ++ "b" :: ["c"]) =
      ["✓ " ++ "Chrome" ++ ": " ++ "b"] :=
  step2_first_match (fsOf ["b", "c"] []) "Chrome" "b" ["a"] ["c"]
    (by decide) (by decide)

/-- C2: the PATH scan (step 3) is exhaustive: for every entry `d` of the
split PATH that is a real directory and every fixed executable name present
in it, the output decomposes around `d`'s own block of match lines and that
block contains the match — so two distinct qualifying directories each
contribute their own match line, unlike step 2's first-match policy. -/
theorem step3_exhaustive (fs : FS) (pathVar : Option String) (d exe : String)
    (pre post : List String)
    (hsplit : path_split (pathVar.getD "") = pre ++ d :: post)
    (hdir : fs.isDir d = true)
    (hexe : exe ∈ browser_exes)
    (hex : fs.pathExists (os_path_join d exe) = true) :
    step3 fs pathVar =
      step3Entries fs pre ++ entryMatches fs d ++ step3Entries fs post ∧
    ("✓ 在 PATH 中找到: " ++ os_path_join d exe) ∈ entryMatches fs d := by
  constructor
  · rw [step3, hsplit]
    simp [step3Entries]
  · rw [entryMatches]
    simp only [hdir, if_true]
    exact List.mem_flatMap.mpr ⟨exe, hexe, by simp [hex]⟩

/-- Witness for C2: PATH `"p;q"` with both `p` and `q` directories
containing `chrome.exe`; instantiated at the second entry `q`. -/
theorem step3_exhaustive_witness :
    step3 (fsOf ["p\\chrome.exe", "q\\chrome.exe"] ["p", "q"]) (some "p;q") =
      step3Entries (fsOf ["p\\chrome.exe", "q\\chrome.exe"] ["p", "q"]) ["p"] ++
      entryMatches (fsOf ["p\\chrome.exe", "q\\chrome.exe"] ["p", "q"]) "q" ++
      step3Entries (fsOf ["p\\chrome.exe", "q\\chrome.exe"] ["p", "q"]) [] ∧
    ("✓ 在 PATH 中找到: " ++ os_path_join "q" "chrome.exe") ∈
      entryMatches (fsOf ["p\\chrome.exe", "q\\chrome.exe"] ["p", "q"]) "q" :=
  step3_exhaustive (fsOf ["p\\chrome.exe", "q\\chrome.exe"] ["p", "q"])
    (some "p;q") "q" "chrome.exe" ["p"] []
    (by decide) (by decide) (by decide) (by decide)

/-- C3: if the launch probe (step 1) and the default-browser controller
query (step 4) both raise, each error is caught where it occurs and its
description is printed in place; all the other steps still run and the
overall output is still produced (nothing propagates). -/
theorem errors_caught (browsers : List (String × List String)) (fs : FS)
    (pathVar : Option String) (plat : Platform) (e1 e2 : String)
    (h1 : plat.webbrowser_open "https://www.baidu.com" = Except.error e1)
    (h2 : plat.webbrowser_get = Except.error e2) :
    run browsers fs pathVar plat =
      ["=== 浏览器检查 ===",
       "\n1. 尝试打开默认浏览器访问百度...",
       "打开浏览器时出错: " ++ e1,
       "\n2. 检查常见浏览器安装路径..."] ++ step2 fs browsers ++
      ["\n3. 检查环境变量中的浏览器..."] ++ step3 fs pathVar ++
      ["\n4. 尝试使用 webbrowser 模块获取浏览器信息...",
       "获取浏览器信息时出错: " ++ e2] := by
  simp [run, step1, step4, tryCatch, h1, h2, Bind.bind, Except.bind]

/-- Witness for C3: the always-failing platform, an empty table and an unset
PATH. -/
theorem errors_caught_witness :
    run [] (fsOf [] []) none platFail =
      ["=== 浏览器检查 ===",
       "\n1. 尝试打开默认浏览器访问百度...",
       "打开浏览器时出错: " ++ "no browser",
       "\n2. 检查常见浏览器安装路径..."] ++ step2 (fsOf [] []) [] ++
      ["\n3. 检查环境变量中的浏览器..."] ++ step3 (fsOf [] []) none ++
      ["\n4. 尝试使用 webbrowser 模块获取浏览器信息...",
       "获取浏览器信息时出错: " ++ "could not locate runnable browser"] :=
  errors_caught [] (fsOf [] []) none platFail
    "no browser" "could not locate runnable browser" rfl rfl

/-- C4: for every home directory, filesystem state, PATH value and platform
behavior (including an always-erroring launch facility and resolver), the
process runs to completion — `runProcess` is a total function — and its exit
status is the success status 0. -/
theorem run_exits_success (home : String) (fs : FS) (pathVar : Option String)
    (plat : Platform) :
    (runProcess home fs pathVar plat).2 = 0 := rfl

/-- C5 counterexample: on a POSIX host, whose path-list separator is `":"`,
the code's split (on the literal `";"`) disagrees with splitting on the
platform path-list separator for the PATH value `"/usr/bin:/bin"`. -/
theorem path_split_not_platform :
    path_split "/usr/bin:/bin" ≠ splitPathSpec HostOS.posix "/usr/bin:/bin" := by
  decide

/-- C5 amended: the PATH scan splits the variable on the literal semicolon,
which is the path-list separator of the Windows host the script targets —
the split agrees with the platform separator exactly on Windows. -/
theorem path_split_windows (s : String) :
    path_split s = splitPathSpec HostOS.windows s := rfl

/-- C6: a split-PATH entry that is not a real directory is skipped: the scan
raises no error and the output is exactly the matches of the remaining
entries — the non-directory entry contributes no line at all. -/
theorem step3_skips_nondir (fs : FS) (pathVar : Option String) (d : String)
    (pre post : List String)
    (hsplit : path_split (pathVar.getD "") = pre ++ d :: post)
    (hd : fs.isDir d = false) :
    step3 fs pathVar = step3Entries fs pre ++ step3Entries fs post := by
  rw [step3, hsplit]
  simp [step3Entries, entryMatches, hd]

/-- Witness for C6: PATH `"x;bad;y"` where `bad` is not a directory. -/
theorem step3_skips_nondir_witness :
    step3 (fsOf [] ["x", "y"]) (some "x;bad;y") =
      step3Entries (fsOf [] ["x", "y"]) ["x"] ++
      step3Entries (fsOf [] ["x", "y"]) ["y"] :=
  step3_skips_nondir (fsOf [] ["x", "y"]) (some "x;bad;y") "bad" ["x"] ["y"]
    (by decide) (by decide)

/-- C7: when none of a browser's candidate paths exist (which includes every
case of missing parent directories — the existence oracle just returns
`false`), step 2 prints exactly one not-found line for that browser and
raises nothing. -/
theorem step2_not_found (fs : FS) (browser_name : String) (paths : List String)
    (h : ∀ p ∈ paths, fs.pathExists p = false) :
    step2Browser fs browser_name paths = ["✗ " ++ browser_name ++ ": 未找到"] := by
  induction paths with
  | nil => rfl
  | cons p rest ih =>
      have hp : fs.pathExists p = false := h p (by simp)
      rw [step2Browser, hp]
      simpa using ih (fun r hr => h r (by simp [hr]))

/-- Witness for C7: a browser with two candidates, neither existing. -/
theorem step2_not_found_witness :
    step2Browser (fsOf [] []) "Opera" ["/a", "/b"] =
      ["✗ " ++ "Opera" ++ ": 未找到"] :=
  step2_not_found (fsOf [] []) "Opera" ["/a", "/b"] (by decide)

/-- C8: end-to-end — with the table Chrome ↦ [/no/such/path],
Firefox ↦ [/no/such/path2] (neither path existing), an empty PATH, and a
launch facility and resolver that both succeed, the output is exactly the
section headers, the launch-success line, the two not-found lines, no
PATH-match lines, and the controller description line, in that order. -/
theorem run_end_to_end (fs : FS) (plat : Platform) (desc : String)
    (hf1 : fs.pathExists "/no/such/path" = false)
    (hf2 : fs.pathExists "/no/such/path2" = false)
    (hdir : fs.isDir "" = false)
    (hopen : plat.webbrowser_open "https://www.baidu.com" = Except.ok ())
    (hget : plat.webbrowser_get = Except.ok desc) :
    run [("Chrome", ["/no/such/path"]), ("Firefox", ["/no/such/path2"])] fs
        (some "") plat =
      ["=== 浏览器检查 ===",
       "\n1. 尝试打开默认浏览器访问百度...",
       "已尝试打开浏览器",
       "\n2. 检查常见浏览器安装路径...",
       "✗ " ++ "Chrome" ++ ": 未找到",
       "✗ " ++ "Firefox" ++ ": 未找到",
       "\n3. 检查环境变量中的浏览器...",
       "\n4. 尝试使用 webbrowser 模块获取浏览器信息...",
       "默认浏览器控制器: " ++ desc] := by
  have hps : path_split "" = [""] := by decide
  have h3 : step3 fs (some "") = [] := by
    rw [step3, Option.getD, hps]
    simp [step3Entries, entryMatches, hdir]
  simp [run, step1, step4, tryCatch, hopen, hget, Bind.bind, Except.bind,
        Pure.pure, Except.pure, step2, step2Browser, hf1, hf2, h3]

/-- Witness for C8: the empty filesystem and the always-succeeding
platform. -/
theorem run_end_to_end_witness :
    run [("Chrome", ["/no/such/path"]), ("Firefox", ["/no/such/path2"])]
        (fsOf [] []) (some "") platOK =
      ["=== 浏览器检查 ===",
       "\n1. 尝试打开默认浏览器访问百度...",
       "已尝试打开浏览器",
       "\n2. 检查常见浏览器安装路径...",
       "✗ " ++ "Chrome" ++ ": 未找到",
       "✗ " ++ "Firefox" ++ ": 未找到",
       "\n3. 检查环境变量中的浏览器...",
       "\n4. 尝试使用 webbrowser 模块获取浏览器信息...",
       "默认浏览器控制器: " ++ "MockController"] :=
  run_end_to_end (fsOf [] []) platOK "MockController"
    (by decide) (by decide) (by decide) rfl rfl

/-- C9: the program reads no command-line argument, flag or option: two
invocations with different argument vectors but the same filesystem,
environment and platform behavior produce identical output and exit
status. -/
theorem run_argv_independent (argv1 argv2 : List String) (home : String)
    (fs : FS) (pathVar : Option String) (plat : Platform) :
    main_argv argv1 home fs pathVar plat = main_argv argv2 home fs pathVar plat :=
  rfl

/-- C10: with the PATH variable unset, `os.environ.get("PATH", "")`
substitutes the empty string, whose split is the single empty entry; that
entry is not a directory, so step 3 prints no match line and raises no
error, and the rest of the run is exactly as it would otherwise be. -/
theorem run_path_unset (browsers : List (String × List String)) (fs : FS)
    (plat : Platform) (hdir : fs.isDir "" = false) :
    path_split ((none : Option String).getD "") = [""] ∧
    step3 fs none = [] ∧
    run browsers fs none plat =
      ["=== 浏览器检查 ==="] ++
      ["\n1. 尝试打开默认浏览器访问百度..."] ++ step1 plat ++
      ["\n2. 检查常见浏览器安装路径..."] ++ step2 fs browsers ++
      ["\n3. 检查环境变量中的浏览器..."] ++
      ["\n4. 尝试使用 webbrowser 模块获取浏览器信息..."] ++ step4 plat := by
  have hps : path_split "" = [""] := by decide
  have h3 : step3 fs none = [] := by
    rw [step3, Option.getD, hps]
    simp [step3Entries, entryMatches, hdir]
  exact ⟨hps, h3, by simp [run, h3]⟩

/-- Witness for C10: the empty filesystem (where `""` is not a directory),
an empty table and the always-succeeding platform. -/
theorem run_path_unset_witness :
    path_split ((none : Option String).getD "") = [""] ∧
    step3 (fsOf [] []) none = [] ∧
    run [] (fsOf [] []) none platOK =
      ["=== 浏览器检查 ==="] ++
      ["\n1. 尝试打开默认浏览器访问百度..."] ++ step1 platOK ++
      ["\n2. 检查常见浏览器安装路径..."] ++ step2 (fsOf [] []) [] ++
      ["\n3. 检查环境变量中的浏览器..."] ++
      ["\n4. 尝试使用 webbrowser 模块获取浏览器信息..."] ++ step4 platOK :=
  run_path_unset [] (fsOf [] []) platOK (by decide)

end CheckBrowsers
